import Mathlib

/-!
Verification development for the tsatool-app condition compiler.

Python strings are modelled as lists of characters (`PyStr`), restricted to
the character repertoire the source manipulates: ASCII plus the umlaut
letters listed in the source tables.  Machine behaviour that raises a
Python exception is modelled with `Except PyExc`.
-/

deriving instance DecidableEq for Except

namespace Tsa

/-- A Python string, modelled as its list of characters. -/
abbrev PyStr := List Char

/-- Convert a Lean string literal to the `PyStr` model. -/
def pystr (s : String) : PyStr := s.data

/-- The default whitespace characters removed by Python `str.strip()`
and split on by `str.split()`. -/
def pyIsSpaceChar (c : Char) : Bool :=
  c = ' ' || c = '\t' || c = '\n' || c = '\x0d' || c = '\x0b' || c = '\x0c'

/-- Python `str.strip()`: remove leading and trailing whitespace. -/
def pyStrip (s : PyStr) : PyStr :=
  ((s.dropWhile pyIsSpaceChar).reverse.dropWhile pyIsSpaceChar).reverse

/-- Case-folding table for `str.lower()` on the modelled repertoire:
the ASCII uppercase letters together with the two uppercase umlaut
letters that occur in the source. -/
def lowerPairs : List (Char × Char) :=
  [('A', 'a'), ('B', 'b'), ('C', 'c'), ('D', 'd'), ('E', 'e'), ('F', 'f'),
   ('G', 'g'), ('H', 'h'), ('I', 'i'), ('J', 'j'), ('K', 'k'), ('L', 'l'),
   ('M', 'm'), ('N', 'n'), ('O', 'o'), ('P', 'p'), ('Q', 'q'), ('R', 'r'),
   ('S', 's'), ('T', 't'), ('U', 'u'), ('V', 'v'), ('W', 'w'), ('X', 'x'),
   ('Y', 'y'), ('Z', 'z'), ('Ä', 'ä'), ('Ö', 'ö')]

/-- `str.lower()` on one character of the modelled repertoire. -/
def pyLowerChar (c : Char) : Char :=
  match lowerPairs.find? (fun p => p.1 = c) with
  | some p => p.2
  | none => c

/-- Python `str.lower()`, character by character. -/
def pyLower (s : PyStr) : PyStr := s.map pyLowerChar

/-- The `umlauts` replacement dictionary of `eliminate_umlauts`
(tsa.py lines 15-20). -/
def umlautPairs : List (Char × Char) :=
  [('ä', 'a'), ('Ä', 'A'), ('ö', 'o'), ('Ö', 'O')]

/-- One-character action of `eliminate_umlauts`. -/
def umlautChar (c : Char) : Char :=
  match umlautPairs.find? (fun p => p.1 = c) with
  | some p => p.2
  | none => c

/-- `eliminate_umlauts` (tsa.py lines 11-24).  The source applies
`str.replace` once per dictionary key; since no replacement value is
itself a key, the sequential replacements coincide with a single
character-wise map. -/
def eliminate_umlauts (s : PyStr) : PyStr := s.map umlautChar

/-- Python `str.isdigit()` on the modelled repertoire. -/
def pyIsDigit (c : Char) : Bool := '0' ≤ c && c ≤ '9'

/-- Python `str.isalnum()` on the modelled repertoire: ASCII letters and
digits plus the umlaut letters of the source tables. -/
def pyIsAlnumChar (c : Char) : Bool :=
  pyIsDigit c || ('a' ≤ c && c ≤ 'z') || ('A' ≤ c && c ≤ 'Z')
    || c = 'ä' || c = 'Ä' || c = 'ö' || c = 'Ö'

/-- The Python exceptions the modelled code can raise. -/
inductive PyExc where
  /-- Raised by an out-of-range index such as `x[0]` on an empty string. -/
  | indexError : PyExc
  /-- Raised by referencing an undefined name. -/
  | nameError : PyExc
  /-- Raised by accessing a missing attribute. -/
  | attributeError : PyExc
  /-- Raised by a call with an unexpected keyword argument. -/
  | typeError : PyExc
  /-- Raised by dividing by zero. -/
  | zeroDivisionError : PyExc
  /-- Raised explicitly by the source with a diagnostic message. -/
  | valueError (msg : PyStr) : PyExc
deriving DecidableEq

/-- Error text of the leading-digit failure of `to_pg_identifier`
(tsa.py lines 46-48). -/
def digitErrMsg (old : PyStr) : PyStr :=
  pystr "String starts with digit:\n" ++ old ++ pystr "\n^"

/-- Error text of the length failure of `to_pg_identifier`
(tsa.py lines 52-53). -/
def lengthErrMsg (old : PyStr) : PyStr :=
  pystr "String too long, maximum is 40 characters:\n" ++ old ++ pystr "\n"

/-- Error text of the character failure of `to_pg_identifier`
(tsa.py lines 58-60): the offending position `i` is marked by `i`
tildes followed by a caret. -/
def charErrMsg (old : PyStr) (i : Nat) : PyStr :=
  pystr "String contains whitespace or non-alphanumeric character:\n" ++ old
    ++ pystr "\n" ++ List.replicate i '~' ++ ['^']

/-- A character `to_pg_identifier` rejects: neither alphanumeric nor
an underscore (tsa.py line 57). -/
def badIdentChar (c : Char) : Bool := !(pyIsAlnumChar c || c = '_')

/-- The normalisation front end of `to_pg_identifier`: strip,
lowercase, fold umlauts (tsa.py lines 37-43). -/
def normPre (x0 : PyStr) : PyStr := eliminate_umlauts (pyLower (pyStrip x0))

/-- The validation back end of `to_pg_identifier` (tsa.py lines 45-63)
over the stripped original `old` (kept for error prompting) and the
normalised string `x`.  On the empty string the check `x[0].isdigit()`
raises `IndexError`; the three designed validation failures raise
`ValueError` with a diagnostic message; the character scan stops at
the first offending index, exactly as the `for` loop with `raise`
does. -/
def to_pg_check (old x : PyStr) : Except PyExc PyStr :=
  match x with
  | [] => Except.error PyExc.indexError
  | c :: _ =>
    if pyIsDigit c then Except.error (PyExc.valueError (digitErrMsg old))
    else if 40 < x.length then Except.error (PyExc.valueError (lengthErrMsg old))
    else
      match x.findIdx? badIdentChar with
      | some i => Except.error (PyExc.valueError (charErrMsg old i))
      | none => Except.ok x

/-- `to_pg_identifier` (tsa.py lines 26-63). -/
def to_pg_identifier (x0 : PyStr) : Except PyExc PyStr :=
  to_pg_check (pyStrip x0) (normPre x0)

/-- Fuel-driven worker for `pySplit`: scan `s`, cutting at every
occurrence of the (nonempty) separator, left to right. -/
def pySplitGo (sep : PyStr) : Nat → PyStr → PyStr → List PyStr
  | 0, s, acc => [acc.reverse ++ s]
  | _ + 1, [], acc => [acc.reverse]
  | fuel + 1, c :: rest, acc =>
    if sep.isPrefixOf (c :: rest) then
      acc.reverse :: pySplitGo sep fuel (List.drop sep.length (c :: rest)) []
    else
      pySplitGo sep fuel rest (c :: acc)

/-- Python `str.split(sep)` with an explicit nonempty separator:
split on every non-overlapping occurrence, scanning left to right. -/
def pySplit (sep : PyStr) (s : PyStr) : List PyStr :=
  match sep with
  | [] => [s]
  | _ :: _ => pySplitGo sep (s.length + 1) s []

/-- Python substring membership `sub in s`. -/
def containsSub (sub : PyStr) (s : PyStr) : Bool :=
  s.tails.any (fun t => sub.isPrefixOf t)

/-- Acceptance of Python `float(value)` on plain decimal literals:
optional sign, then digits with an optional fractional part (at least
one digit overall), with an optional integer exponent. -/
def pyFloatOk (v : PyStr) : Bool :=
  let s := pyStrip v
  let s := match s with
    | '+' :: r => r
    | '-' :: r => r
    | r => r
  let intPart := s.takeWhile pyIsDigit
  let s1 := s.dropWhile pyIsDigit
  let core : Bool × PyStr :=
    match s1 with
    | '.' :: r =>
      (!(intPart.isEmpty && (r.takeWhile pyIsDigit).isEmpty), r.dropWhile pyIsDigit)
    | r => (!intPart.isEmpty, r)
  let expOk : PyStr → Bool := fun r =>
    match r with
    | [] => true
    | 'e' :: r1 | 'E' :: r1 =>
      let r2 := match r1 with
        | '+' :: r2 => r2
        | '-' :: r2 => r2
        | r2 => r2
      !(r2.takeWhile pyIsDigit).isEmpty && (r2.dropWhile pyIsDigit).isEmpty
    | _ => false
  core.1 && expOk core.2

/-- The fixed operator list of `unpack_logic` (tsa.py line 97); every
operator is surrounded by spaces. -/
def operators : List PyStr :=
  [pystr " = ", pystr " != ", pystr " > ", pystr " < ", pystr " >= ",
   pystr " <= ", pystr " in "]

/-- Number of distinct listed operators occurring in the lowercased
logic string (tsa.py lines 99-103). -/
def operator_occurrences (logic : PyStr) : Nat :=
  (operators.filter (fun op => containsSub op logic)).length

/-- `unpack_logic` (tsa.py lines 65-139): split a
`[station]#[sensor] [operator] [value]` string into its four parts,
validating each of them.  Failures raise `ValueError`.  When exactly
one listed operator occurs, it is the operator kept by the loop. -/
def unpack_logic (raw_logic : PyStr) : Except PyExc (PyStr × PyStr × PyStr × PyStr) := do
  let logic_list := pySplit ['#'] raw_logic
  match logic_list with
  | [st_part, lg_part] =>
    let station ← to_pg_identifier st_part
    let logic := pyLower lg_part
    let present := operators.filter (fun op => containsSub op logic)
    match present with
    | [op_included] =>
      let logic_parts := pySplit op_included logic
      let operator := pyStrip op_included
      match logic_parts with
      | [sens_part, val_part] =>
        let sensor ← to_pg_identifier sens_part
        let value := pyStrip val_part
        if operator = pystr "in" then
          if value.head? = some '(' && value.getLast? = some ')' then
            Except.ok (station, sensor, operator, value)
          else
            Except.error (PyExc.valueError
              (pystr "Value after operator is not a valid tuple:\n" ++ raw_logic))
        else
          if pyFloatOk value then
            Except.ok (station, sensor, operator, value)
          else
            Except.error (PyExc.valueError
              (pystr "Must be numeric value after operator:\n" ++ raw_logic))
      | _ =>
        Except.error (PyExc.valueError
          (pystr "Too many or missing parts separated by operator:\n" ++ raw_logic))
    | _ =>
      Except.error (PyExc.valueError
        (pystr "Too many or no operators:\n" ++ raw_logic))
  | _ =>
    Except.error (PyExc.valueError
      (pystr "Too many or no \"#\"s, should be [station]#[logic]:" ++ raw_logic))

/-- Token roles allowed in first position (condition.py line 119). -/
def allowed_first : List String := ["open_par", "not", "block"]

/-- The adjacency table of `validate_order` (condition.py lines 120-126). -/
def allowed_pairs : List (String × String) :=
  [("open_par", "open_par"), ("open_par", "not"), ("open_par", "block"),
   ("close_par", "close_par"), ("close_par", "andor"),
   ("andor", "open_par"), ("andor", "not"), ("andor", "block"),
   ("not", "open_par"), ("not", "block"),
   ("block", "close_par"), ("block", "andor")]

/-- Token roles allowed in last position (condition.py line 127). -/
def allowed_last : List String := ["close_par", "block"]

/-- Loop body of `Condition.validate_order` (condition.py lines 130-151),
indexed element by element.  Two faithful infelicities of the source:

* every `self.errors.add(...)` sits inside the `@staticmethod`, where the
  name `self` is unbound, so reaching it raises `NameError`;
* each of the three `success = False` statements is indented under the
  positional `if`, not under the membership test, so it executes
  unconditionally whenever its positional branch is entered. -/
def validate_order_go (last_i : Nat) : Nat → Bool → List (String × String) →
    Except PyExc Bool
  | _, success, [] => Except.ok success
  | i, success, el :: rest =>
    let step1 : Except PyExc Bool :=
      if i = 0 then
        if el.1 ∈ allowed_first then Except.ok false
        else Except.error PyExc.nameError
      else if i = last_i then
        if el.1 ∈ allowed_last then Except.ok false
        else Except.error PyExc.nameError
      else Except.ok success
    match step1 with
    | Except.error e => Except.error e
    | Except.ok succ1 =>
      if i < last_i then
        match rest with
        | nxt :: _ =>
          if (el.1, nxt.1) ∈ allowed_pairs then
            validate_order_go last_i (i + 1) false rest
          else Except.error PyExc.nameError
        | [] => validate_order_go last_i (i + 1) succ1 rest
      else validate_order_go last_i (i + 1) succ1 rest

/-- `Condition.validate_order` (condition.py lines 83-153) over
`(role, text)` pairs, role names as in the source. -/
def validate_order (tuples : List (String × String)) : Except PyExc Bool :=
  validate_order_go (tuples.length - 1) 0 true tuples

/-- Modelled from the spec: `tsa/utils.py` (imported by
`tsa/condition.py` as the normalizer used by `Condition.__init__`) is
not under `src/`.  Spec section 4.1: trim; fold the umlaut table;
lowercase; fail with `InvalidIdentifier` (a diagnostic `ValueError`
here) when the string is empty after trim, its first character is a
digit, its length exceeds 40, or it contains a character outside
`[a-z0-9_]`. -/
def utils_to_pg_identifier (x0 : PyStr) : Except PyExc PyStr :=
  let t := pyLower (eliminate_umlauts (pyStrip x0))
  match t with
  | [] => Except.error (PyExc.valueError (pystr "InvalidIdentifier: empty string"))
  | c :: _ =>
    if pyIsDigit c then
      Except.error (PyExc.valueError (pystr "InvalidIdentifier: starts with digit"))
    else if 40 < t.length then
      Except.error (PyExc.valueError (pystr "InvalidIdentifier: longer than 40"))
    else if t.any (fun c => !(('a' ≤ c && c ≤ 'z') || pyIsDigit c || c = '_')) then
      Except.error (PyExc.valueError (pystr "InvalidIdentifier: forbidden character"))
    else Except.ok t

/-- The attributes a fully constructed `tsa.condition.Condition` would
carry after the lines 44-48 of its constructor; no value of this type
is ever produced, see `condition_init`. -/
structure ConditionObj where
  site : PyStr
  master_alias : PyStr
  id_string : PyStr
  condition : PyStr
deriving DecidableEq

/-- `Condition.__init__` (condition.py lines 42-66) up to its first
statements: normalize `site`, `master_alias` and their joined
`id_string`, then evaluate
`eliminate_umlauts(raw_condition).strip.lower()` (line 48).  There
`.strip` without parentheses is the bound method object, and a method
object has no attribute `lower`, so the line raises `AttributeError`
before tokenization (`make_blocks`, line 66) can start. -/
def condition_init (site master_alias raw_condition : PyStr) :
    Except PyExc ConditionObj :=
  match utils_to_pg_identifier site with
  | Except.error e => Except.error e
  | Except.ok s =>
    match utils_to_pg_identifier master_alias with
    | Except.error e => Except.error e
    | Except.ok m =>
      match utils_to_pg_identifier (s ++ '_' :: m) with
      | Except.error e => Except.error e
      | Except.ok _id =>
        let _folded := eliminate_umlauts raw_condition
        Except.error PyExc.attributeError

/-- Modelled from the spec: `tsa/tsaerror.py` is not under `src/`.
Spec section 6 error report entries are `(scope, kind, message)`
triples; `TsaError(lvl=..., cxt=..., msg=...)` carries the same three
fields. -/
structure TsaError where
  lvl : PyStr
  cxt : PyStr
  msg : PyStr
deriving DecidableEq

/-- The attributes `CondCollection.__init__` assigns
(cond_collection.py lines 44-67).  Note that no attribute `name` is
ever assigned; the class only has `title`. -/
structure CondCollectionState where
  title : Option PyStr
  conditions : List (PyStr × ConditionObj)
  errors : List TsaError
deriving DecidableEq

/-- `CondCollection.add_error` (cond_collection.py lines 76-84).  Its
first statement builds the error context `f'Sheet {self.name}'`, but
`CondCollection` never assigns an attribute `name`, so the attribute
access raises `AttributeError` before anything is appended. -/
def CondCollection_add_error (_st : CondCollectionState) (_msg : PyStr) :
    Except PyExc CondCollectionState :=
  Except.error PyExc.attributeError

/-- Suffix appended to `add_condition` failure messages when an Excel
row is known (cond_collection.py lines 196-197). -/
def rowSuffix (excel_row : Option Nat) : PyStr :=
  match excel_row with
  | some r => pystr " (row " ++ pystr (toString r) ++ pystr " in Excel)"
  | none => []

/-- `CondCollection.add_condition` (cond_collection.py lines 172-199).
The whole body runs inside `try`.  Constructing the `Condition` raises
(see `condition_init`); even if it returned, the duplicate check reads
the misspelled attribute `self.condtitions`, raising `AttributeError`
inside the `try`.  Either way the bare `except:` catches, builds
`msg = 'Could not add condition'` (plus the row suffix) and calls
`add_error` on it, which itself raises `AttributeError` (missing
`name` attribute), so the error is never recorded and the exception
propagates to the caller. -/
def add_condition (st : CondCollectionState)
    (site master_alias raw_condition : PyStr) (excel_row : Option Nat) :
    Except PyExc CondCollectionState :=
  let msg := pystr "Could not add condition" ++ rowSuffix excel_row
  match condition_init site master_alias raw_condition with
  | Except.error _ => CondCollection_add_error st msg
  | Except.ok _ => CondCollection_add_error st msg

/-- Python `str.split()` without arguments: split on whitespace runs,
dropping empty pieces. -/
def pyWordsGo : PyStr → PyStr → List PyStr
  | [], cur => if cur.isEmpty then [] else [cur.reverse]
  | c :: r, cur =>
    if pyIsSpaceChar c then
      if cur.isEmpty then pyWordsGo r [] else cur.reverse :: pyWordsGo r []
    else pyWordsGo r (c :: cur)

/-- Whitespace collapsing of `make_blocks` (condition.py line 178):
`' '.join(value.split())`. -/
def collapse (value : PyStr) : PyStr :=
  List.intercalate [' '] (pyWordsGo value [])

/-- Match of one word alternative of the `re.split` pattern of
`make_blocks` (condition.py lines 186-187) at the current position:
`and`, `or` and `not` need a whitespace character immediately before
(lookbehind) and after (lookahead, not consumed); `not` may instead sit
at the very start of the string, followed by whitespace.  Returns the
separator text and the number of characters it consumes. -/
def wordSepAt (prev : Option Char) (s : PyStr) : Option (PyStr × Nat) :=
  let behindSpace := match prev with
    | some p => pyIsSpaceChar p
    | none => false
  let nextIsSpace : PyStr → Bool := fun l =>
    match l with
    | c :: _ => pyIsSpaceChar c
    | [] => false
  if behindSpace && (pystr "and").isPrefixOf s && nextIsSpace (s.drop 3) then
    some (pystr "and", 3)
  else if behindSpace && (pystr "or").isPrefixOf s && nextIsSpace (s.drop 2) then
    some (pystr "or", 2)
  else if behindSpace && (pystr "not").isPrefixOf s && nextIsSpace (s.drop 3) then
    some (pystr "not", 3)
  else if prev = none && (pystr "not").isPrefixOf s && nextIsSpace (s.drop 3) then
    some (pystr "not", 3)
  else none

/-- Fuel-driven scanner realising the `re.split` of `make_blocks`
(condition.py lines 186-187): cut at every parenthesis and at every
word separator, keeping the separators as their own pieces. -/
def splitCondGo : Nat → Option Char → PyStr → PyStr → List PyStr
  | 0, _, s, cur => [cur.reverse ++ s]
  | _ + 1, _, [], cur => [cur.reverse]
  | fuel + 1, prev, c :: rest, cur =>
    if c = '(' || c = ')' then
      cur.reverse :: [c] :: splitCondGo fuel (some c) rest []
    else
      match wordSepAt prev (c :: rest) with
      | some (tok, n) =>
        cur.reverse :: tok :: splitCondGo fuel tok.getLast? (List.drop n (c :: rest)) []
      | none => splitCondGo fuel (some c) rest (c :: cur)

/-- The `re.split` of `make_blocks` over a whole string. -/
def splitCond (value : PyStr) : List PyStr :=
  splitCondGo (value.length + 1) none value []

/-- Last three characters of a string, as sliced by Python `s[-3:]`. -/
def lastThree (l : PyStr) : PyStr := (l.reverse.take 3).reverse

/-- One step of the parentheses-after-`in` merge of `make_blocks`
(condition.py lines 195-205); the accumulated `new_sp` list is kept
reversed so its Python `[-1]` element is the head. -/
def inMergeStep (accRev : List PyStr) (el : PyStr) : List PyStr :=
  match accRev with
  | [] => [el]
  | lastEl :: restRev =>
    if 3 < lastEl.length && lastThree lastEl = pystr " in" then
      (lastEl ++ ' ' :: el) :: restRev
    else if containsSub (pystr " in ") lastEl && lastEl.getLast? ≠ some ')' then
      (lastEl ++ el) :: restRev
    else el :: lastEl :: restRev

/-- The parentheses-after-`in` merge of `make_blocks`. -/
def inMerge (sp : List PyStr) : List PyStr :=
  (sp.foldl inMergeStep []).reverse

/-- The fragment list `new_sp` reaching the role-identification loop of
`make_blocks` (condition.py lines 176-205): collapse whitespace, apply
the `re.split`, strip each piece, drop empty pieces and merge the
parenthesised tuples after `in`. -/
def fragmentsOf (condition : PyStr) : List PyStr :=
  inMerge (((splitCond (collapse condition)).map pyStrip).filter
    (fun el => !el.isEmpty))

/-- `Condition.make_blocks` (condition.py lines 155-302) as reached at
line 66 of the constructor.  Two faithful failure modes of the source:

* if the parenthesis counts differ, the error report call
  `self.errors.add(...)` (line 170) raises `AttributeError`, because
  `self.errors` is only assigned at line 81, after `make_blocks` has
  already been called at line 66;
* otherwise, the role-identification loop evaluates `tokens.keys()`
  (line 220), but the `tokens` dictionary is commented out at lines
  214-218, so a nonempty fragment list raises `NameError` before any
  `Block` is constructed; an empty fragment list instead reaches the
  `No Blocks were created` report, whose `self.errors.add` raises
  `AttributeError` as above.

No execution path returns normally, so no Block list is ever made. -/
def make_blocks_model (condition : PyStr) : Except PyExc Unit :=
  if condition.count '(' ≠ condition.count ')' then
    Except.error PyExc.attributeError
  else
    match fragmentsOf condition with
    | [] => Except.error PyExc.attributeError
    | _ :: _ => Except.error PyExc.nameError

/-- `pandas` column minimum over the modelled result frame; `none` for
an empty frame. -/
def pdMin : List Int → Option Int
  | [] => none
  | x :: xs => some (xs.foldl min x)

/-- `pandas` column maximum over the modelled result frame. -/
def pdMax : List Int → Option Int
  | [] => none
  | x :: xs => some (xs.foldl max x)

/-- One row of the result temp table read by `fetch_results_from_db`:
slice bounds and length (timestamps and durations in seconds) and the
three-valued `master` column (`none` models SQL NULL). -/
structure ResultRow where
  vfrom : Int
  vuntil : Int
  vdiff : Int
  master : Option Bool
deriving DecidableEq

/-- The summary attributes of a `Condition`
(condition.py lines 54-55 and 71-79). -/
structure SummaryState where
  tottime : Int
  tottime_valid : Int
  tottime_notvalid : Int
  tottime_nodata : Int
  percentage_valid : Rat
  percentage_notvalid : Rat
  percentage_nodata : Rat
  data_from : Option Int
  data_until : Option Int
deriving DecidableEq

/-- The summary attributes as `Condition.__init__` initialises them
(condition.py lines 71-79): the whole window counts as no-data. -/
def init_summary (time_from time_until : Int) : SummaryState :=
  ⟨time_until - time_from, 0, 0, time_until - time_from, 0, 0, 1, none, none⟩

/-- `Condition.fetch_results_from_db` (condition.py lines 409-439).
An invalid condition returns at once; a failed database read records an
error and returns; otherwise the data bounds, the per-state totals and
the percentages are recomputed.  Every percentage divides by
`self.tottime.total_seconds()` with no guard, so a zero total span
raises `ZeroDivisionError`. -/
def fetch_results_from_db (is_valid : Bool) (st : SummaryState)
    (df : Option (List ResultRow)) : Except PyExc SummaryState :=
  if !is_valid then Except.ok st
  else
    match df with
    | none => Except.ok st
    | some rows =>
      let data_from := pdMin (rows.map (fun r => r.vfrom))
      let data_until := pdMax (rows.map (fun r => r.vuntil))
      let tottime :=
        match data_from, data_until with
        | some a, some b => b - a
        | _, _ => st.tottime
      let tvalid := ((rows.filter (fun r => r.master = some true)).map
        (fun r => r.vdiff)).sum
      let tnotvalid := ((rows.filter (fun r => r.master = some false)).map
        (fun r => r.vdiff)).sum
      let tnodata := tottime - tvalid - tnotvalid
      if tottime = 0 then Except.error PyExc.zeroDivisionError
      else
        Except.ok ⟨tottime, tvalid, tnotvalid, tnodata,
          (tvalid : Rat) / (tottime : Rat), (tnotvalid : Rat) / (tottime : Rat),
          (tnodata : Rat) / (tottime : Rat), data_from, data_until⟩

/-- A resolved Block as `create_db_temptable` consumes it: its alias
and its interval-query fragment.  The fragment text comes from
`Block.get_sql_def`, modelled from the spec: `tsa/block.py` is not
under `src/`; spec section 6 describes the fragment as the query
yielding the contiguous-validity interval ranges of the Block. -/
structure BlockDef where
  blockAlias : String
  sqlDef : String
deriving DecidableEq

/-- Python `sep.join(parts)`. -/
def pyJoin (sep : String) : List String → String
  | [] => ""
  | [x] => x
  | x :: y :: r => x ++ sep ++ pyJoin sep (y :: r)

/-- The per-Block temp table definition of `create_db_temptable`
(condition.py lines 334-337). -/
def block_def_sql (bl : BlockDef) : String :=
  "CREATE TEMP TABLE " ++ bl.blockAlias ++ " ON COMMIT DROP AS ("
    ++ bl.sqlDef ++ ");"

/-- The single-Block branch of `create_db_temptable`
(condition.py lines 347-355): select the intervals of the one Block
directly, repeating its boolean column as `master`. -/
def single_block_select (id_string bAlias : String) : String :=
  "\nCREATE TEMP TABLE " ++ id_string ++ " AS ( \n"
    ++ "SELECT \n"
    ++ "lower(valid_r) AS vfrom, \n"
    ++ "upper(valid_r) AS vuntil, \n"
    ++ "upper(valid_r)-lower(valid_r) AS vdiff, \n"
    ++ bAlias ++ ", \n"
    ++ bAlias ++ " AS master \n"
    ++ "FROM " ++ bAlias ++ ");"

/-- The multi-Block branch of `create_db_temptable`
(condition.py lines 356-383): union all interval boundaries into
`master_seq`, window them into elementary ranges (`master_ranges`),
left-join every Block and evaluate the alias condition as `master`. -/
def multi_block_select (id_string : String) (blocks : List BlockDef)
    (alias_condition : String) : String :=
  let master_seq_els := blocks.map (fun bl =>
    "SELECT unnest( array [lower(valid_r), upper(valid_r)] ) AS vt FROM "
      ++ bl.blockAlias)
  let master_seq_sql := pyJoin "\nUNION \n" master_seq_els
  let s1 := "\nCREATE TEMP TABLE " ++ id_string ++ " AS ( \n"
    ++ "WITH master_seq AS ( \n" ++ master_seq_sql ++ " \n"
    ++ "ORDER BY vt), \n"
  let s2 := "master_ranges_wlastnull AS ( \n"
    ++ "SELECT vt AS vfrom, LEAD(vt, 1) OVER (ORDER BY vt) AS vuntil \n"
    ++ "FROM master_seq), \n"
  let s3 := "master_ranges AS ( \n"
    ++ "SELECT tstzrange(vfrom, vuntil) AS valid_r \n"
    ++ "FROM master_ranges_wlastnull \n"
    ++ "WHERE vuntil IS NOT NULL) \n"
  let block_join_els := "master_ranges" :: blocks.map (fun bl =>
    "LEFT JOIN " ++ bl.blockAlias ++ " ON master_ranges.valid_r && "
      ++ bl.blockAlias ++ ".valid_r")
  let block_join_sql := pyJoin " \n" block_join_els
  let s4 := "SELECT \n"
    ++ "lower(master_ranges.valid_r) AS vfrom, \n"
    ++ "upper(master_ranges.valid_r) AS vuntil, \n"
    ++ "upper(master_ranges.valid_r)-lower(master_ranges.valid_r) AS vdiff, \n"
  let s5 := pyJoin ", \n" (blocks.map (fun bl => bl.blockAlias)) ++ ", \n"
  let s6 := "(" ++ alias_condition ++ ") AS master \nFROM " ++ block_join_sql ++ ");"
  s1 ++ s2 ++ s3 ++ s4 ++ s5 ++ s6

/-- The `create_sql` text built by `Condition.create_db_temptable`
(condition.py lines 334-383): the Block temp table definitions
followed by the single-Block or the partition-building multi-Block
CREATE statement, chosen by `len(self.blocks) == 1`. -/
def create_temptable_sql (id_string : String) (blocks : List BlockDef)
    (alias_condition : String) : String :=
  let create0 := pyJoin "\n" (blocks.map block_def_sql)
  if blocks.length = 1 then
    create0 ++ single_block_select id_string (blocks.headD ⟨"", ""⟩).blockAlias
  else
    create0 ++ multi_block_select id_string blocks alias_condition

/-- One row of a Block temp table: an interval with its boolean value. -/
structure BlockRow where
  vfrom : Int
  vuntil : Int
  value : Bool
deriving DecidableEq

/-- One row of the Condition temp table in the single-Block case. -/
structure Slice where
  vfrom : Int
  vuntil : Int
  vdiff : Int
  blockVal : Bool
  master : Bool
deriving DecidableEq

/-- Row-level meaning of the single-Block SELECT of
`create_db_temptable` (condition.py lines 347-355): every row of the
Block temp table yields exactly one result row, whose `master` column
repeats the boolean column of the Block itself. -/
def singleBlockPlan (rows : List BlockRow) : List Slice :=
  rows.map (fun r => ⟨r.vfrom, r.vuntil, r.vuntil - r.vfrom, r.value, r.value⟩)

/-- A Condition as `CondCollection.create_condition_temptables` sees
it: its key in the ordered collection and its `secondary` flag. -/
structure CondEntry where
  key : String
  secondary : Bool
deriving DecidableEq

/-- The pass-1 body of `create_condition_temptables`
(cond_collection.py lines 254-262): the call target is the name `cnd`,
which is never defined (the loop variable is `cndk`), so the call
raises `NameError` and no temp table is created. -/
def primary_call (_c : CondEntry) : Except PyExc String :=
  Except.error PyExc.nameError

/-- The pass-2 body of `create_condition_temptables`
(cond_collection.py lines 267-273): the call passes the keyword
argument `src_tables`, which `Condition.create_db_temptable`
(condition.py line 314) does not accept, so the call raises
`TypeError`. -/
def secondary_call (_c : CondEntry) : Except PyExc String :=
  Except.error PyExc.typeError

/-- First round of `create_condition_temptables`: primary conditions
only; every exception is caught and merely logged
(cond_collection.py lines 253-262), so the round always completes,
returning the keys whose temp tables were actually created. -/
def temptables_pass1 : List CondEntry → List String
  | [] => []
  | c :: rest =>
    if c.secondary then temptables_pass1 rest
    else
      match primary_call c with
      | Except.ok k => k :: temptables_pass1 rest
      | Except.error _ => temptables_pass1 rest

/-- Second round of `create_condition_temptables`: secondary conditions
only, with no exception handling (cond_collection.py lines 265-273),
so the first failure aborts the whole method. -/
def temptables_pass2 : List CondEntry → Except PyExc (List String)
  | [] => Except.ok []
  | c :: rest =>
    if !c.secondary then temptables_pass2 rest
    else
      match secondary_call c with
      | Except.ok k => (temptables_pass2 rest).map (fun ks => k :: ks)
      | Except.error e => Except.error e

/-- `CondCollection.create_condition_temptables`
(cond_collection.py lines 245-273): the keys handled by the primary
round, then the outcome of the secondary round. -/
def create_condition_temptables (conds : List CondEntry) :
    List String × Except PyExc (List String) :=
  (temptables_pass1 conds, temptables_pass2 conds)

/-- Success discriminator of an exception-modelled computation. -/
def exceptIsOk {ε α : Type} : Except ε α → Bool
  | Except.ok _ => true
  | Except.error _ => false

theorem findIdx?_none_iff_any_false {α : Type} (p : α → Bool) (l : List α) :
    l.findIdx? p = none ↔ l.any p = false := by
  induction l with
  | nil => simp
  | cons a as ih =>
    by_cases h : p a
    · simp [List.findIdx?_cons, h]
    · simp [List.findIdx?_cons, h, ih]

theorem space_is_bad (c : Char) (h : pyIsSpaceChar c = true) :
    badIdentChar c = true := by
  unfold pyIsSpaceChar at h
  simp only [Bool.or_eq_true, decide_eq_true_eq] at h
  rcases h with ((((h | h) | h) | h) | h) | h <;> subst h <;> decide

theorem dropWhile_eq_self_of_no_space {l : PyStr}
    (h : ∀ c ∈ l, pyIsSpaceChar c = false) :
    l.dropWhile pyIsSpaceChar = l := by
  cases l with
  | nil => rfl
  | cons a as => simp [List.dropWhile_cons, h a (List.mem_cons_self a as)]

theorem pyStrip_eq_self {l : PyStr} (h : ∀ c ∈ l, pyIsSpaceChar c = false) :
    pyStrip l = l := by
  unfold pyStrip
  rw [dropWhile_eq_self_of_no_space h,
    dropWhile_eq_self_of_no_space (fun c hc => h c (List.mem_reverse.mp hc)),
    List.reverse_reverse]

theorem lowerPairs_snd_fixed :
    ∀ p ∈ lowerPairs, pyLowerChar (umlautChar p.2) = umlautChar p.2
      ∧ umlautChar (umlautChar p.2) = umlautChar p.2 := by decide

theorem composite_fixed (c : Char) :
    pyLowerChar (umlautChar (pyLowerChar c)) = umlautChar (pyLowerChar c)
      ∧ umlautChar (umlautChar (pyLowerChar c)) = umlautChar (pyLowerChar c) := by
  cases hl : lowerPairs.find? (fun p => p.1 = c) with
  | some p =>
    have hp : p ∈ lowerPairs := List.mem_of_find?_eq_some hl
    have he : pyLowerChar c = p.2 := by unfold pyLowerChar; rw [hl]
    rw [he]
    exact lowerPairs_snd_fixed p hp
  | none =>
    have he : pyLowerChar c = c := by unfold pyLowerChar; rw [hl]
    rw [he]
    cases hu : umlautPairs.find? (fun p => p.1 = c) with
    | none =>
      have hu' : umlautChar c = c := by unfold umlautChar; rw [hu]
      rw [hu']
      exact ⟨he, hu'⟩
    | some q =>
      have hq : q ∈ umlautPairs := List.mem_of_find?_eq_some hu
      have hqc : q.1 = c := by
        have := List.find?_some hu
        exact of_decide_eq_true this
      have hv : q = ('ä', 'a') ∨ q = ('Ä', 'A') ∨ q = ('ö', 'o') ∨ q = ('Ö', 'O') := by
        simpa [umlautPairs] using hq
      rcases hv with h | h | h | h <;> subst h <;> rw [← hqc] at hl ⊢
      · decide
      · exact absurd hl (by decide)
      · decide
      · exact absurd hl (by decide)

theorem composite_fixed_both (c : Char) :
    umlautChar (pyLowerChar (umlautChar (pyLowerChar c)))
      = umlautChar (pyLowerChar c) := by
  rw [(composite_fixed c).1, (composite_fixed c).2]

/-- C1.  Contrary to the claim (and to the docstring of
`validate_order`), the conforming token sequence of
`"(s1#x>1 and s2#y<2)"` is not accepted: the three misindented
`success = False` statements execute unconditionally, so the validator
returns `False` while adding no error; and a sequence starting with an
And/Or connective or a closing parenthesis is not rejected with a
recorded error but crashes with `NameError`, because the
`@staticmethod` references the unbound name `self`. -/
theorem validate_order_conforming_returns_false :
    validate_order
        [("open_par", "("), ("block", "s1#x>1"), ("andor", "and"),
         ("block", "s2#y<2"), ("close_par", ")")] = Except.ok false
      ∧ validate_order [("andor", "AND"), ("block", "s1#x>1")]
          = Except.error PyExc.nameError
      ∧ validate_order [("close_par", ")"), ("block", "s1#x>1")]
          = Except.error PyExc.nameError := by
  refine ⟨by decide, by decide, by decide⟩

/-- C2.  Contrary to the claim, grammar validation does throw: the
very first violation reaches `self.errors.add(...)` inside the
`@staticmethod`, where `self` is unbound, so a `NameError` is raised,
no error is appended, and no later violation is ever examined. -/
theorem validate_order_raises_on_first_violation :
    validate_order [("andor", "and")] = Except.error PyExc.nameError := by
  decide

/-- C6.  `unpack_logic` parses `"s1122#KITKA3_LUKU >= 0.30"` into
station `s1122`, sensor `kitka3_luku`, operator `>=` and value `0.30`,
and exactly one operator of the fixed whitespace-delimited list occurs
in the lowercased logic part. -/
theorem unpack_logic_kitka_example :
    unpack_logic (pystr "s1122#KITKA3_LUKU >= 0.30")
        = Except.ok (pystr "s1122", pystr "kitka3_luku", pystr ">=", pystr "0.30")
      ∧ operator_occurrences (pyLower (pystr "KITKA3_LUKU >= 0.30")) = 1 := by
  refine ⟨by decide, by decide⟩

/-- C9.  On a collection holding one primary and one secondary
Condition, in that insertion order, `create_condition_temptables`
creates no temp table in the primary round (the undefined name `cnd`
raises `NameError`, caught and only logged) and then aborts with an
uncaught `TypeError` at the first secondary Condition (unexpected
keyword argument `src_tables`); moreover the primary round never
creates any temp table for any collection. -/
theorem create_condition_temptables_aborts :
    create_condition_temptables [⟨"site_p", false⟩, ⟨"site_s", true⟩]
        = ([], Except.error PyExc.typeError)
      ∧ ∀ conds : List CondEntry, temptables_pass1 conds = [] := by
  constructor
  · decide
  · intro conds
    induction conds with
    | nil => rfl
    | cons c rest ih =>
      cases h : c.secondary <;> simp [temptables_pass1, primary_call, h, ih]

/-- C7 (amended).  `to_pg_identifier` fails exactly when the trimmed
input is empty, its first character (after lowering and umlaut
folding) is a digit, its length exceeds 40, or some character is
outside the accepted alphanumeric-or-underscore set; `"3abc"` is
rejected with the diagnostic `ValueError`; a character violation at
index `i` is reported with a `ValueError` whose message repeats the
stripped original and marks position `i` with `i` tildes and a caret.
However the empty string does not fail with the diagnostic error but
with an `IndexError` (see the counterexample). -/
theorem to_pg_identifier_failure_conditions :
    (∀ s : PyStr, exceptIsOk (to_pg_identifier s) = false ↔
      (normPre s = [] ∨ pyIsDigit ((normPre s).headD 'x') = true
        ∨ 40 < (normPre s).length ∨ (normPre s).any badIdentChar = true))
    ∧ to_pg_identifier (pystr "") = Except.error PyExc.indexError
    ∧ to_pg_identifier (pystr "3abc")
        = Except.error (PyExc.valueError (digitErrMsg (pystr "3abc")))
    ∧ (∀ (s : PyStr) (i : Nat),
        pyIsDigit ((normPre s).headD 'x') = false →
        (normPre s).length ≤ 40 →
        (normPre s).findIdx? badIdentChar = some i →
        to_pg_identifier s
            = Except.error (PyExc.valueError (charErrMsg (pyStrip s) i))
          ∧ charErrMsg (pyStrip s) i
            = pystr "String contains whitespace or non-alphanumeric character:\n"
              ++ pyStrip s ++ pystr "\n" ++ List.replicate i '~' ++ ['^']) := by
  refine ⟨?_, by decide, by decide, ?_⟩
  · intro s
    rw [to_pg_identifier]
    generalize normPre s = t
    cases t with
    | nil => simp [to_pg_check, exceptIsOk]
    | cons c ts =>
      by_cases hd : pyIsDigit c
      · simp [to_pg_check, exceptIsOk, hd]
      · by_cases hlen : 40 < (c :: ts).length
        all_goals simp only [List.length_cons] at hlen
        · simp [to_pg_check, exceptIsOk, hd, hlen]
        · cases hf : (c :: ts).findIdx? badIdentChar with
          | some i =>
            have hany : (c :: ts).any badIdentChar = true := by
              by_contra hab
              rw [Bool.not_eq_true] at hab
              rw [(findIdx?_none_iff_any_false _ _).mpr hab] at hf
              cases hf
            simp [to_pg_check, exceptIsOk, hd, hlen, hf, hany]
          | none =>
            have hany := (findIdx?_none_iff_any_false _ _).mp hf
            simp [to_pg_check, exceptIsOk, hd, hlen, hf, hany]
  · intro s i hd hlen hf
    constructor
    · rw [to_pg_identifier]
      cases ht : normPre s with
      | nil => rw [ht] at hf; cases hf
      | cons c ts =>
        rw [ht] at hd hlen hf
        simp only [List.headD_cons] at hd
        have hlen' : ¬ 40 < ts.length + 1 := by
          simp only [List.length_cons] at hlen
          exact Nat.not_lt.mpr hlen
        simp [to_pg_check, hd, hlen', hf]
    · rfl

/-- Witness for C7: the concrete character violation of `"ab#cd"` at
original position 2, via the amended theorem. -/
theorem to_pg_identifier_failure_conditions_witness :
    (normPre (pystr "ab#cd")).findIdx? badIdentChar = some 2
      ∧ to_pg_identifier (pystr "ab#cd")
        = Except.error (PyExc.valueError (charErrMsg (pystr "ab#cd") 2)) := by
  refine ⟨by decide, ?_⟩
  have h := (to_pg_identifier_failure_conditions.2.2.2 (pystr "ab#cd") 2
    (by decide) (by decide) (by decide)).1
  have hs : pyStrip (pystr "ab#cd") = pystr "ab#cd" := by decide
  rwa [hs] at h

/-- Counterexample for C7 as stated: `to_pg_identifier("")` does not
raise the diagnostic `InvalidIdentifier` `ValueError`; evaluating
`x[0].isdigit()` on the empty string raises an `IndexError` with no
message at all. -/
theorem to_pg_identifier_empty_counterexample :
    to_pg_identifier (pystr "") = Except.error PyExc.indexError := by decide

theorem to_pg_ok_inv {x0 y : PyStr} (h : to_pg_identifier x0 = Except.ok y) :
    y = normPre x0 ∧ (∀ c ts, y = c :: ts → pyIsDigit c = false)
      ∧ ¬ 40 < y.length ∧ y.findIdx? badIdentChar = none ∧ y ≠ [] := by
  rw [to_pg_identifier] at h
  cases ht : normPre x0 with
  | nil => rw [ht] at h; cases h
  | cons c ts =>
    rw [ht] at h
    cases hd : pyIsDigit c with
    | true => simp [to_pg_check, hd] at h
    | false =>
      by_cases hlen : 40 < (c :: ts).length
      all_goals have hlen' := hlen
      all_goals simp only [List.length_cons] at hlen'
      · simp [to_pg_check, hd, hlen'] at h
      · cases hf : (c :: ts).findIdx? badIdentChar with
        | some i => simp [to_pg_check, hd, hlen', hf] at h
        | none =>
          simp only [to_pg_check, hd, hlen', hf, List.length_cons,
            Bool.false_eq_true, if_false, Except.ok.injEq] at h
          subst h
          refine ⟨rfl, ?_, hlen, hf, by simp⟩
          intro c' ts' hcc
          injection hcc with h1 _
          rw [h1] at hd
          exact hd

/-- C10.  `to_pg_identifier` is idempotent: whenever it succeeds, it
succeeds again on its own output and returns it unchanged. -/
theorem to_pg_identifier_idempotent (s y : PyStr)
    (h : to_pg_identifier s = Except.ok y) :
    to_pg_identifier y = Except.ok y := by
  obtain ⟨hy, hd, hlen, hf, hne⟩ := to_pg_ok_inv h
  have hgood : ∀ c ∈ y, badIdentChar c = false := by
    have hany := (findIdx?_none_iff_any_false _ _).mp hf
    simp only [List.any_eq_false] at hany
    intro c hc
    cases hbc : badIdentChar c with
    | false => rfl
    | true => exact absurd hbc (hany c hc)
  have hnospace : ∀ c ∈ y, pyIsSpaceChar c = false := by
    intro c hc
    by_contra hs
    rw [Bool.not_eq_false] at hs
    have hb := space_is_bad c hs
    rw [hgood c hc] at hb
    cases hb
  have hstrip : pyStrip y = y := pyStrip_eq_self hnospace
  have key : ∀ l : PyStr,
      eliminate_umlauts (pyLower (eliminate_umlauts (pyLower l)))
        = eliminate_umlauts (pyLower l) := by
    intro l
    simp only [eliminate_umlauts, pyLower, List.map_map]
    exact List.map_congr_left (fun c _ => composite_fixed_both c)
  have hfix2 : eliminate_umlauts (pyLower y) = y := by
    rw [hy]
    exact key (pyStrip s)
  rw [to_pg_identifier]
  show to_pg_check (pyStrip y) (eliminate_umlauts (pyLower (pyStrip y)))
    = Except.ok y
  rw [hstrip, hfix2]
  cases y with
  | nil => exact absurd rfl hne
  | cons c ts =>
    have hd2 : pyIsDigit c = false := hd c ts rfl
    simp only [List.length_cons] at hlen
    simp [to_pg_check, hd2, hf, Nat.lt_succ_iff]
    omega

/-- Witness for C10 at the concrete input `"Tie_123"`. -/
theorem to_pg_identifier_idempotent_witness :
    to_pg_identifier (pystr "Tie_123") = Except.ok (pystr "tie_123")
      ∧ to_pg_identifier (pystr "tie_123") = Except.ok (pystr "tie_123") :=
  ⟨by decide,
   to_pg_identifier_idempotent (pystr "Tie_123") (pystr "tie_123") (by decide)⟩

/-- C3 (amended).  When site and master alias pass identifier
normalization and their combined `site_master` identifier also passes
(the only extra failure it can introduce is the 40-character length
check), constructing a Condition raises `AttributeError` at the
`.strip.lower()` attribute access, before any tokenization; no input
whatsoever yields a Condition object; and `add_condition` always
propagates `AttributeError`: its `except:` block builds the message
`Could not add condition` but the recording call `add_error` itself
crashes on the missing `name` attribute, so the error is logged but
never recorded. -/
theorem condition_init_attribute_error (site ma rc s m : PyStr)
    (h1 : utils_to_pg_identifier site = Except.ok s)
    (h2 : utils_to_pg_identifier ma = Except.ok m)
    (h3 : exceptIsOk (utils_to_pg_identifier (s ++ '_' :: m)) = true) :
    condition_init site ma rc = Except.error PyExc.attributeError
      ∧ (∀ s' m' r' : PyStr, exceptIsOk (condition_init s' m' r') = false)
      ∧ (∀ (st : CondCollectionState) (s' m' r' : PyStr) (er : Option Nat),
          add_condition st s' m' r' er = Except.error PyExc.attributeError) := by
  refine ⟨?_, ?_, ?_⟩
  · simp only [condition_init, h1, h2]
    cases hid : utils_to_pg_identifier (s ++ '_' :: m) with
    | error e => rw [hid] at h3; simp [exceptIsOk] at h3
    | ok v => simp [hid]
  · intro s' m' r'
    cases ha : utils_to_pg_identifier s' with
    | error e => simp [condition_init, ha, exceptIsOk]
    | ok sv =>
      cases hb : utils_to_pg_identifier m' with
      | error e => simp [condition_init, ha, hb, exceptIsOk]
      | ok mv =>
        cases hc : utils_to_pg_identifier (sv ++ '_' :: mv) with
        | error e => simp [condition_init, ha, hb, hc, exceptIsOk]
        | ok idv => simp [condition_init, ha, hb, hc, exceptIsOk]
  · intro st s' m' r' er
    cases h : condition_init s' m' r' <;>
      simp [add_condition, CondCollection_add_error, h]

/-- Witness for C3 at concrete inputs passing normalization. -/
theorem condition_init_attribute_error_witness :
    utils_to_pg_identifier (pystr "site1") = Except.ok (pystr "site1")
      ∧ utils_to_pg_identifier (pystr "d2") = Except.ok (pystr "d2")
      ∧ condition_init (pystr "site1") (pystr "d2") (pystr "s1#x > 1")
          = Except.error PyExc.attributeError :=
  ⟨by decide, by decide,
   (condition_init_attribute_error (pystr "site1") (pystr "d2")
      (pystr "s1#x > 1") (pystr "site1") (pystr "d2")
      (by decide) (by decide) (by decide)).1⟩

/-- Counterexample for C3 as stated: a 20-character site and a
20-character master alias both pass identifier normalization, yet
constructing the Condition does not raise `AttributeError` — the
combined `site_master` identifier fails the 40-character length check
first, so a normalization `ValueError` is raised instead (no Condition
is created either way). -/
theorem condition_init_length_counterexample :
    exceptIsOk (utils_to_pg_identifier (List.replicate 20 'a')) = true
      ∧ exceptIsOk (utils_to_pg_identifier (List.replicate 20 'b')) = true
      ∧ condition_init (List.replicate 20 'a') (List.replicate 20 'b') (pystr "x")
          ≠ Except.error PyExc.attributeError := by
  refine ⟨by decide, by decide, by decide⟩

/-- C4 (amended).  For every condition string with balanced
parentheses that yields at least one fragment — in particular
`"s1#x>1 and s1#x>1"` — `make_blocks` raises `NameError` in the role
identification loop, because the `tokens` role dictionary is commented
out; so no Block is produced and no deduplication (by any notion of
equality) ever runs. -/
theorem make_blocks_role_name_error (cond : PyStr)
    (hbal : cond.count '(' = cond.count ')')
    (hfr : fragmentsOf cond ≠ []) :
    make_blocks_model cond = Except.error PyExc.nameError := by
  simp only [make_blocks_model]
  rw [if_neg (fun hne => hne hbal)]
  cases hf : fragmentsOf cond with
  | nil => exact absurd hf hfr
  | cons a as => rfl

/-- Witness for C4 at the expression of the claim. -/
theorem make_blocks_role_name_error_witness :
    (pystr "s1#x>1 and s1#x>1").count '('
        = (pystr "s1#x>1 and s1#x>1").count ')'
      ∧ fragmentsOf (pystr "s1#x>1 and s1#x>1") ≠ []
      ∧ make_blocks_model (pystr "s1#x>1 and s1#x>1")
          = Except.error PyExc.nameError :=
  ⟨by decide, by decide,
   make_blocks_role_name_error (pystr "s1#x>1 and s1#x>1")
     (by decide) (by decide)⟩

/-- Counterexample for C4 as stated: for `"s1#x>1 and s1#x>1"` no
unique Block is produced at all — role identification raises
`NameError` before any Block can be built or compared. -/
theorem make_blocks_dedup_counterexample :
    make_blocks_model (pystr "s1#x>1 and s1#x>1")
      = Except.error PyExc.nameError := by decide

/-- C5 (amended).  The constructor initialises `percentageNoData = 1`
and the other percentages to `0`, and these survive whenever
summarization is skipped (invalid condition); but when summarization
actually runs on fetched data whose total span is zero, the unguarded
divisions raise `ZeroDivisionError` instead of keeping the degenerate
values. -/
theorem fetch_results_zero_span (a : Int) (st : SummaryState)
    (rows : List ResultRow)
    (hmin : pdMin (rows.map (fun r => r.vfrom)) = some a)
    (hmax : pdMax (rows.map (fun r => r.vuntil)) = some a) :
    fetch_results_from_db true st (some rows)
        = Except.error PyExc.zeroDivisionError
      ∧ (∀ (tf tu : Int) (df : Option (List ResultRow)),
          fetch_results_from_db false (init_summary tf tu) df
              = Except.ok (init_summary tf tu)
            ∧ (init_summary tf tu).percentage_nodata = 1
            ∧ (init_summary tf tu).percentage_valid = 0
            ∧ (init_summary tf tu).percentage_notvalid = 0) := by
  constructor
  · simp only [fetch_results_from_db, hmin, hmax]
    simp [sub_self]
  · intro tf tu df
    exact ⟨rfl, rfl, rfl, rfl⟩

/-- Witness for C5: a one-row frame whose single slice starts and ends
at the same timestamp. -/
theorem fetch_results_zero_span_witness :
    fetch_results_from_db true (init_summary 0 100) (some [⟨0, 0, 0, none⟩])
        = Except.error PyExc.zeroDivisionError
      ∧ (init_summary 0 100).percentage_nodata = 1 :=
  ⟨(fetch_results_zero_span 0 (init_summary 0 100) [⟨0, 0, 0, none⟩]
      (by decide) (by decide)).1,
   ((fetch_results_zero_span 0 (init_summary 0 100) [⟨0, 0, 0, none⟩]
      (by decide) (by decide)).2 0 100 none).2.1⟩

/-- Counterexample for C5 as stated: with a valid condition and a
fetched frame whose data span is zero, summarization raises
`ZeroDivisionError` — the claim that no division-by-zero error is
raised is false. -/
theorem fetch_results_zero_span_counterexample :
    fetch_results_from_db true (init_summary 0 100) (some [⟨5, 5, 0, none⟩])
      = Except.error PyExc.zeroDivisionError := by decide

/-- C8.  With exactly one Block, `create_db_temptable` emits the
direct single-Block statement: the partition is the interval list of
that Block itself and the `master` column repeats the Block column;
the boundary-union machinery (`master_seq`, `master_ranges`) used for
several Blocks is absent from the generated SQL, as the two concrete
containment checks illustrate. -/
theorem create_db_temptable_single_block (id_string alias_condition : String)
    (bd : BlockDef) :
    create_temptable_sql id_string [bd] alias_condition
        = block_def_sql bd ++ single_block_select id_string bd.blockAlias
      ∧ (∀ rows : List BlockRow,
          (singleBlockPlan rows).map (fun sl => sl.master)
              = rows.map (fun r => r.value)
            ∧ (singleBlockPlan rows).map (fun sl => (sl.vfrom, sl.vuntil))
              = rows.map (fun r => (r.vfrom, r.vuntil))
            ∧ ∀ sl ∈ singleBlockPlan rows, sl.master = sl.blockVal)
      ∧ containsSub (pystr "master_seq")
          (create_temptable_sql "c1_d2" [⟨"d2_0", "q0"⟩] "d2_0").data = false
      ∧ containsSub (pystr "master_seq")
          (create_temptable_sql "c1_d2" [⟨"d2_0", "q0"⟩, ⟨"d2_1", "q1"⟩]
            "d2_0 and d2_1").data = true := by
  refine ⟨rfl, ?_, by decide, by decide⟩
  intro rows
  refine ⟨?_, ?_, ?_⟩
  · simp only [singleBlockPlan, List.map_map]
    rfl
  · simp only [singleBlockPlan, List.map_map]
    rfl
  · intro sl hsl
    simp only [singleBlockPlan, List.mem_map] at hsl
    obtain ⟨r, _, rfl⟩ := hsl
    rfl

/-- Witness for C8: the one-row single-Block plan copies the Block
value into `master`. -/
theorem create_db_temptable_single_block_witness :
    (Slice.mk 0 5 5 true true).master = (Slice.mk 0 5 5 true true).blockVal :=
  ((create_db_temptable_single_block "c9x" "b9x" ⟨"b9x", "q9x"⟩).2.1
      [⟨0, 5, true⟩]).2.2 (Slice.mk 0 5 5 true true) (by decide)

end Tsa
